import Mathlib

/-!
Shallow embedding of the UMass dining nutrition-extraction core
(`backend/nutrition_scraper.py`): the numeric normalizer, the
attribute-based extractor (`_parse_nutrition_table`), the text-pattern
extractor (`_parse_nutrition_cards`), merge/deduplication
(`scrape_location`), the all-locations sweep (`scrape_all_locations`)
and search (`search_food_nutrition`).

Strings are modelled as `List Char`; Python floats as `ℚ` (all values in
scope are exact decimals); Python ints as `Int`.  The parsed HTML document
is modelled by the two element families the extractors query:
`li.lightbox-nutrition` items (with an optional anchor carrying the data
attributes) and card-like containers (with an optional name element and
their visible text).  The HTTP fetch is a parameter
`fetch : Str → Except Unit Doc`; a raised Python exception is an
`Except.error`.
-/

namespace UMacro

abbrev Str := List Char

/-- Convert a Lean string literal to the `List Char` string model. -/
def str (s : String) : Str := s.data

def strLower (s : Str) : Str := s.map Char.toLower

/-- Python `\s` / `str.strip` whitespace, ASCII range. -/
def pyIsSpace (c : Char) : Bool :=
  c = ' ' || c = '\t' || c = '\n' || c = '\r' || c = '\x0b' || c = '\x0c'

/-- Python `str.strip()`. -/
def pyStrip (s : Str) : Str :=
  ((s.dropWhile pyIsSpace).reverse.dropWhile pyIsSpace).reverse

def digitsToNat (s : Str) : Nat :=
  s.foldl (fun a c => a * 10 + (c.toNat - Char.toNat '0')) 0

/-- Value of a string made of decimal digits and at most one dot
(integer part, then fractional part scaled down). -/
def valOfDigitsDots (s : Str) : ℚ :=
  let ip := s.takeWhile (fun c => c ≠ '.')
  let fp := (s.dropWhile (fun c => c ≠ '.')).drop 1
  (digitsToNat ip : ℚ) + (digitsToNat fp : ℚ) / (10 : ℚ) ^ fp.length

/-- Python `float()` restricted to strings of digits and dots (the only
inputs it receives here): succeeds iff there is at most one dot and at
least one digit, else `ValueError` → `none`. -/
def pyFloatDigitsDots (s : Str) : Option ℚ :=
  if s.count '.' ≤ 1 ∧ s.any Char.isDigit then some (valOfDigitsDots s)
  else none

/-- Python `int()` on a text attribute: optional surrounding whitespace,
optional sign, decimal digits.  (Python's underscore digit grouping is
not modelled; no input in scope uses it.) -/
def pyInt (s : Str) : Option Int :=
  match pyStrip s with
  | [] => none
  | c :: rest =>
    if c = '+' then
      if rest ≠ [] ∧ rest.all Char.isDigit then some (digitsToNat rest : Int) else none
    else if c = '-' then
      if rest ≠ [] ∧ rest.all Char.isDigit then some (-(digitsToNat rest : Int)) else none
    else
      if (c :: rest).all Char.isDigit then some (digitsToNat (c :: rest) : Int) else none

/-- `_extract_number_from_text`: strip the text, drop every character that
is not a digit or a dot, parse the remainder; empty or unparseable → `none`
(the `try/except ValueError` never lets an exception escape). -/
def extract_number_from_text (text : Str) : Option ℚ :=
  if text = [] then none
  else
    let cleaned := (pyStrip text).filter (fun c => c.isDigit || c = '.')
    if cleaned = [] then none
    else pyFloatDigitsDots cleaned

/-- The `NutritionData` dataclass. -/
structure NutritionData where
  name : Str
  dining_location : Option Str := none
  meal_type : Option Str := none
  serving_size : Option Str := none
  calories : Option Int := none
  total_fat : Option ℚ := none
  saturated_fat : Option ℚ := none
  trans_fat : Option ℚ := none
  cholesterol : Option ℚ := none
  sodium : Option ℚ := none
  total_carbohydrates : Option ℚ := none
  dietary_fiber : Option ℚ := none
  total_sugars : Option ℚ := none
  protein : Option ℚ := none
deriving DecidableEq, Repr

/-- Python truthiness of an `Optional[int]` (`None` and `0` are falsy). -/
def truthyOptInt : Option Int → Bool
  | none => false
  | some n => decide (n ≠ 0)

/-- Python truthiness of an `Optional[float]` (`None` and `0.0` are falsy). -/
def truthyOptRat : Option ℚ → Bool
  | none => false
  | some q => decide (q ≠ 0)

/-- The retention filter
`any([nutrition.calories, nutrition.protein, nutrition.total_fat,
nutrition.total_carbohydrates])` shared by both extractors. -/
def hasSubstantive (nd : NutritionData) : Bool :=
  truthyOptInt nd.calories || truthyOptRat nd.protein ||
    truthyOptRat nd.total_fat || truthyOptRat nd.total_carbohydrates

/-- The anchor inside an `li.lightbox-nutrition` element: its stripped
visible text and the data attributes the extractor reads (`none` =
attribute missing from the markup). -/
structure Anchor where
  text : Str
  dataDishName : Option Str := none
  dataCalories : Option Str := none
  dataProtein : Option Str := none
  dataTotalFat : Option Str := none
  dataSatFat : Option Str := none
  dataTransFat : Option Str := none
  dataCholesterol : Option Str := none
  dataSodium : Option Str := none
  dataTotalCarb : Option Str := none
  dataDietaryFiber : Option Str := none
  dataSugars : Option Str := none
  dataServingSize : Option Str := none
deriving DecidableEq, Repr

/-- An `li` with class `lightbox-nutrition`; `anchor = none` models
`item.find('a')` returning nothing. -/
structure LightboxItem where
  anchor : Option Anchor
deriving DecidableEq, Repr

/-- A card-like container (`div`/`article` whose class matches
`card|item|dish|food|menu-item`): the stripped text of its name element
when one matches `name|title|dish|food`, and the container's full
visible text. -/
structure Card where
  nameElem : Option Str
  text : Str
deriving DecidableEq, Repr

/-- The parsed document, restricted to the element families the two
extractors query, in document order. -/
structure Doc where
  lightboxItems : List LightboxItem
  cards : List Card
deriving DecidableEq, Repr

/-- `if nutrition_link.get(attr):` — the attribute's value when it is
present and truthy (non-empty), else `none`. -/
def getIfTruthy : Option Str → Option Str
  | none => none
  | some s => if s = [] then none else some s

/-- One iteration of `_parse_nutrition_table`'s loop body: `none` means the
entry is skipped (`continue`), `some` is the record appended. -/
def parseAttrEntry (it : LightboxItem) : Option NutritionData :=
  match it.anchor with
  | none => none
  | some a =>
    let food_name :=
      match a.dataDishName with
      | some s => if s = [] then a.text else s
      | none => a.text
    if food_name.isEmpty || food_name.length < 2 then none
    else
      let nd : NutritionData :=
        { name := food_name
          calories := (getIfTruthy a.dataCalories).bind pyInt
          protein := (getIfTruthy a.dataProtein).bind extract_number_from_text
          total_fat := (getIfTruthy a.dataTotalFat).bind extract_number_from_text
          saturated_fat := (getIfTruthy a.dataSatFat).bind extract_number_from_text
          trans_fat := (getIfTruthy a.dataTransFat).bind extract_number_from_text
          cholesterol := (getIfTruthy a.dataCholesterol).bind extract_number_from_text
          sodium := (getIfTruthy a.dataSodium).bind extract_number_from_text
          total_carbohydrates := (getIfTruthy a.dataTotalCarb).bind extract_number_from_text
          dietary_fiber := (getIfTruthy a.dataDietaryFiber).bind extract_number_from_text
          total_sugars := (getIfTruthy a.dataSugars).bind extract_number_from_text
          serving_size := getIfTruthy a.dataServingSize }
      if hasSubstantive nd then some nd else none

/-- `_parse_nutrition_table`. -/
def parse_nutrition_table (doc : Doc) : List NutritionData :=
  doc.lightboxItems.filterMap parseAttrEntry

/-- Case-insensitive literal prefix test (`re.I` literal parts). -/
def prefixCI (pat s : Str) : Bool :=
  (strLower pat).isPrefixOf (strLower s)

/-- `re.search(r'(\d+)\s*cal', text, re.I)` attempted at the start of `s`:
a nonempty digit run, whitespace, then literal `cal`.  Greedy runs are
deterministic here because the character classes are disjoint. -/
def matchCalAt (s : Str) : Option Str :=
  let d := s.takeWhile Char.isDigit
  if d = [] then none
  else if prefixCI (str "cal") ((s.drop d.length).dropWhile pyIsSpace) then some d
  else none

/-- Leftmost search for the `cal` pattern (group 1, the digit run). -/
def searchCal : Str → Option Str
  | [] => none
  | c :: rest =>
    match matchCalAt (c :: rest) with
    | some d => some d
    | none => searchCal rest

/-- `\d+(?:\.\d+)?` at the start of `s`: the matched number text and the
remainder.  The optional fraction is taken exactly when a dot directly
followed by a digit is present (backtracking the greedy choice can never
rescue a failed match, since what follows in every pattern in scope can
start with neither a dot nor a digit). -/
def parseNumAt (s : Str) : Option (Str × Str) :=
  let d := s.takeWhile Char.isDigit
  if d = [] then none
  else
    match s.drop d.length with
    | '.' :: r2 =>
      let f := r2.takeWhile Char.isDigit
      if f = [] then some (d, s.drop d.length)
      else some (d ++ '.' :: f, r2.drop f.length)
    | r => some (d, r)

/-- `re.search(r'(\d+(?:\.\d+)?)\s*g?\s*<word>', text, re.I)` attempted at
the start of `s` (word ∈ {protein, fat, carb}, none of which starts with
`g`, so the optional `g` branch is deterministic). -/
def matchGWordAt (word : Str) (s : Str) : Option Str :=
  match parseNumAt s with
  | none => none
  | some (num, r) =>
    match r.dropWhile pyIsSpace with
    | [] => none
    | c :: r3 =>
      if c.toLower = 'g' then
        if prefixCI word (r3.dropWhile pyIsSpace) then some num else none
      else if prefixCI word (c :: r3) then some num else none

/-- Leftmost search for the number-`g?`-word pattern (group 1). -/
def searchGWord (word : Str) : Str → Option Str
  | [] => none
  | c :: rest =>
    match matchGWordAt word (c :: rest) with
    | some num => some num
    | none => searchGWord word rest

/-- The unit alternation `(oz|g|ml|cup|tbsp)` at the start of `s`,
tried left to right; returns the unit as it appears in the text. -/
def matchUnitAt (s : Str) : Option Str :=
  if prefixCI (str "oz") s then some (s.take 2)
  else if prefixCI (str "g") s then some (s.take 1)
  else if prefixCI (str "ml") s then some (s.take 2)
  else if prefixCI (str "cup") s then some (s.take 3)
  else if prefixCI (str "tbsp") s then some (s.take 4)
  else none

/-- `(\d+(?:\.\d+)?)\s*(oz|g|ml|cup|tbsp)` attempted at the start of `s`. -/
def matchNumUnitAt (s : Str) : Option (Str × Str) :=
  match parseNumAt s with
  | none => none
  | some (num, r) =>
    match matchUnitAt (r.dropWhile pyIsSpace) with
    | none => none
    | some u => some (num, u)

/-- The lazy gap `.*?` after `serving`: try the number-unit pattern at each
position, moving right one character at a time; `.` does not match a
newline, so the gap cannot grow past one. -/
def servingGap : Str → Option (Str × Str)
  | [] => none
  | c :: rest =>
    match matchNumUnitAt (c :: rest) with
    | some v => some v
    | none => if c = '\n' then none else servingGap rest

/-- `re.search(r'serving.*?(\d+(?:\.\d+)?)\s*(oz|g|ml|cup|tbsp)', text, re.I)`:
leftmost occurrence of `serving` from which the gap scan succeeds. -/
def searchServing : Str → Option (Str × Str)
  | [] => none
  | c :: rest =>
    match (if prefixCI (str "serving") (c :: rest)
           then servingGap ((c :: rest).drop 7) else none) with
    | some v => some v
    | none => searchServing rest

/-- One iteration of `_parse_nutrition_cards`' card loop body. -/
def parseCard (card : Card) : Option NutritionData :=
  match card.nameElem with
  | none => none
  | some name =>
    if name.isEmpty || name.length < 2 then none
    else
      let nd : NutritionData :=
        { name := name
          calories := (searchCal card.text).map (fun d => (digitsToNat d : Int))
          protein := (searchGWord (str "protein") card.text).map valOfDigitsDots
          total_fat := (searchGWord (str "fat") card.text).map valOfDigitsDots
          total_carbohydrates := (searchGWord (str "carb") card.text).map valOfDigitsDots
          serving_size := (searchServing card.text).map (fun p => p.1 ++ ' ' :: p.2) }
      if hasSubstantive nd then some nd else none

/-- One iteration of `_parse_nutrition_cards`' compatibility re-scan of
`li.lightbox-nutrition` items (only calories, protein, total fat, total
carbohydrates and serving size are extracted there). -/
def parseAttrEntryCompat (it : LightboxItem) : Option NutritionData :=
  match it.anchor with
  | none => none
  | some a =>
    let food_name :=
      match a.dataDishName with
      | some s => if s = [] then a.text else s
      | none => a.text
    if food_name.isEmpty || food_name.length < 2 then none
    else
      let nd : NutritionData :=
        { name := food_name
          calories := (getIfTruthy a.dataCalories).bind pyInt
          protein := (getIfTruthy a.dataProtein).bind extract_number_from_text
          total_fat := (getIfTruthy a.dataTotalFat).bind extract_number_from_text
          total_carbohydrates := (getIfTruthy a.dataTotalCarb).bind extract_number_from_text
          serving_size := getIfTruthy a.dataServingSize }
      if hasSubstantive nd then some nd else none

/-- `_parse_nutrition_cards`: the card pass, then the compatibility pass. -/
def parse_nutrition_cards (doc : Doc) : List NutritionData :=
  doc.cards.filterMap parseCard ++ doc.lightboxItems.filterMap parseAttrEntryCompat

/-- `self.dining_halls` (campus eateries are all commented out, so
`self.all_locations` equals this table): location key → menu URL. -/
def locTable : List (Str × Str) :=
  [ (str "berkshire", str "https://umassdining.com/locations-menus/berkshire/menu"),
    (str "franklin", str "https://umassdining.com/locations-menus/franklin/menu"),
    (str "worcester", str "https://umassdining.com/locations-menus/worcester/menu"),
    (str "hampshire", str "https://umassdining.com/locations-menus/hampshire/menu") ]

/-- `list(self.all_locations.keys())`. -/
def locKeys : List Str := locTable.map Prod.fst

def lookupLoc (key : Str) : Option Str := locTable.lookup key

/-- `location_name.lower().replace(' ', '_')`. -/
def normKey (location_name : Str) : Str :=
  (strLower location_name).map (fun c => if c = ' ' then '_' else c)

/-- Python `str.title()`: uppercase every alphabetic character that follows
a non-alphabetic one, lowercase the rest of each letter run. -/
def pyTitleGo : Bool → Str → Str
  | _, [] => []
  | prevAlpha, c :: rest =>
    (if c.isAlpha then (if prevAlpha then c.toLower else c.toUpper) else c)
      :: pyTitleGo c.isAlpha rest

def pyTitle (s : Str) : Str := pyTitleGo false s

/-- The per-kept-record context assignment of the merge stage (and of the
all-locations search loop):
`item.dining_location = location_name.replace('_', ' ').title()` and
`item.meal_type = 'Lunch'`. -/
def stampLoc (location_name : Str) (nd : NutritionData) : NutritionData :=
  { nd with
    dining_location := some (pyTitle (location_name.map (fun c => if c = '_' then ' ' else c)))
    meal_type := some (str "Lunch") }

/-- The dedup loop of `scrape_location`: first case-insensitive name
occurrence wins, each kept record gets the location context. -/
def dedupStamp (location_name : Str) : List Str → List NutritionData → List NutritionData
  | _, [] => []
  | seen, it :: rest =>
    if strLower it.name ∈ seen then dedupStamp location_name seen rest
    else stampLoc location_name it :: dedupStamp location_name (strLower it.name :: seen) rest

/-- Errors `scrape_location` raises: the unknown-location `ValueError`
(carrying the requested name and the available keys of its message) or a
re-raised fetch/parse failure. -/
inductive ScrapeErr where
  | invalidLocation (location : Str) (available : List Str)
  | fetchFailed
deriving DecidableEq, Repr

/-- `scrape_location`: normalize the key, look it up (unknown → raise),
fetch the page (failure re-raised), run both extractors over the document
and deduplicate. -/
def scrape_location (fetch : Str → Except Unit Doc) (location_name : Str) :
    Except ScrapeErr (List NutritionData) :=
  match lookupLoc (normKey location_name) with
  | none => .error (.invalidLocation location_name locKeys)
  | some url =>
    match fetch url with
    | .error _ => .error .fetchFailed
    | .ok doc =>
      .ok (dedupStamp location_name []
            (parse_nutrition_table doc ++ parse_nutrition_cards doc))

/-- One iteration of `scrape_all_locations`' loop: the location's results,
or `[]` when scraping it raised. -/
def scrapeAllEntry (fetch : Str → Except Unit Doc) (key : Str) : List NutritionData :=
  match scrape_location fetch key with
  | .ok v => v
  | .error _ => []

/-- `scrape_all_locations`: every registered location in order, each mapped
to its results (failures contribute the empty list). -/
def scrape_all_locations (fetch : Str → Except Unit Doc) :
    List (Str × List NutritionData) :=
  locKeys.map (fun k => (k, scrapeAllEntry fetch k))

/-- Python's substring test `needle in haystack`. -/
def py_in (needle : Str) : Str → Bool
  | [] => needle.isEmpty
  | c :: rest => needle.isPrefixOf (c :: rest) || py_in needle rest

/-- `food_name.lower() in item.name.lower()`. -/
def nameMatches (food_name : Str) (nd : NutritionData) : Bool :=
  py_in (strLower food_name) (strLower nd.name)

/-- One iteration of `search_food_nutrition`'s all-locations loop: scrape
the location (failure → skip, zero results), keep name matches and
re-stamp their location context. -/
def searchLocContrib (fetch : Str → Except Unit Doc) (food_name key : Str) :
    List NutritionData :=
  match scrape_location fetch key with
  | .error _ => []
  | .ok data => (data.filter (nameMatches food_name)).map (stampLoc key)

/-- `search_food_nutrition`: single-location mode filters that location's
scrape (any error — the unknown-location `ValueError` included — is caught
and yields `[]`); all-locations mode concatenates the per-location
contributions. -/
def search_food_nutrition (fetch : Str → Except Unit Doc) (food_name : Str) :
    Option Str → List NutritionData
  | some location =>
    match scrape_location fetch location with
    | .ok data => data.filter (nameMatches food_name)
    | .error _ => []
  | none => locKeys.flatMap (searchLocContrib fetch food_name)

/-! ## Helper lemmas -/

lemma valOfDigitsDots_nonneg (s : Str) : 0 ≤ valOfDigitsDots s := by
  unfold valOfDigitsDots
  positivity

lemma extract_number_nonneg {t : Str} {q : ℚ}
    (h : extract_number_from_text t = some q) : 0 ≤ q := by
  simp only [extract_number_from_text, pyFloatDigitsDots] at h
  split at h
  · simp at h
  · split at h
    · simp at h
    · split at h
      · rw [Option.some.injEq] at h
        exact h ▸ valOfDigitsDots_nonneg _
      · simp at h

lemma bind_extract_number_nonneg {o : Option Str} {q : ℚ}
    (h : o.bind extract_number_from_text = some q) : 0 ≤ q := by
  cases o with
  | none => simp at h
  | some t => exact extract_number_nonneg h

lemma hasSubstantive_isSome {nd : NutritionData} (h : hasSubstantive nd = true) :
    nd.calories.isSome ∨ nd.protein.isSome ∨ nd.total_fat.isSome ∨
      nd.total_carbohydrates.isSome := by
  cases h1 : nd.calories <;> cases h2 : nd.protein <;> cases h3 : nd.total_fat <;>
    cases h4 : nd.total_carbohydrates <;>
      simp_all [hasSubstantive, truthyOptInt, truthyOptRat]

lemma hasSubstantive_nonzero {nd : NutritionData} (h : hasSubstantive nd = true) :
    (∃ c, nd.calories = some c ∧ c ≠ 0) ∨ (∃ q, nd.protein = some q ∧ q ≠ 0) ∨
      (∃ q, nd.total_fat = some q ∧ q ≠ 0) ∨
      (∃ q, nd.total_carbohydrates = some q ∧ q ≠ 0) := by
  cases h1 : nd.calories <;> cases h2 : nd.protein <;> cases h3 : nd.total_fat <;>
    cases h4 : nd.total_carbohydrates <;>
      simp_all [hasSubstantive, truthyOptInt, truthyOptRat] <;> tauto

lemma parseAttrEntry_substantive {it : LightboxItem} {nd : NutritionData}
    (h : parseAttrEntry it = some nd) : hasSubstantive nd = true := by
  simp only [parseAttrEntry] at h
  split at h
  · exact absurd h (by simp)
  · split at h
    · exact absurd h (by simp)
    · split at h
      · rw [Option.some.injEq] at h
        subst h
        assumption
      · exact absurd h (by simp)

lemma parseAttrEntryCompat_substantive {it : LightboxItem} {nd : NutritionData}
    (h : parseAttrEntryCompat it = some nd) : hasSubstantive nd = true := by
  simp only [parseAttrEntryCompat] at h
  split at h
  · exact absurd h (by simp)
  · split at h
    · exact absurd h (by simp)
    · split at h
      · rw [Option.some.injEq] at h
        subst h
        assumption
      · exact absurd h (by simp)

lemma parseCard_substantive {card : Card} {nd : NutritionData}
    (h : parseCard card = some nd) : hasSubstantive nd = true := by
  simp only [parseCard] at h
  split at h
  · exact absurd h (by simp)
  · split at h
    · exact absurd h (by simp)
    · split at h
      · rw [Option.some.injEq] at h
        subst h
        assumption
      · exact absurd h (by simp)

lemma mem_table_substantive {doc : Doc} {nd : NutritionData}
    (h : nd ∈ parse_nutrition_table doc) : hasSubstantive nd = true := by
  obtain ⟨it, _, hit⟩ := List.mem_filterMap.mp h
  exact parseAttrEntry_substantive hit

lemma mem_cards_substantive {doc : Doc} {nd : NutritionData}
    (h : nd ∈ parse_nutrition_cards doc) : hasSubstantive nd = true := by
  rcases List.mem_append.mp h with hc | hl
  · obtain ⟨card, _, hit⟩ := List.mem_filterMap.mp hc
    exact parseCard_substantive hit
  · obtain ⟨it, _, hit⟩ := List.mem_filterMap.mp hl
    exact parseAttrEntryCompat_substantive hit

lemma stampLoc_name (loc : Str) (nd : NutritionData) :
    (stampLoc loc nd).name = nd.name := rfl

lemma stampLoc_idem (loc : Str) (nd : NutritionData) :
    stampLoc loc (stampLoc loc nd) = stampLoc loc nd := rfl

lemma dedupStamp_length (loc : Str) (seen : List Str) (l : List NutritionData) :
    (dedupStamp loc seen l).length ≤ l.length := by
  induction l generalizing seen with
  | nil => simp [dedupStamp]
  | cons hd t ih =>
    rw [dedupStamp]
    split
    · exact le_trans (ih _) (Nat.le_succ _)
    · simpa using ih _

lemma dedupStamp_mem {loc : Str} {seen : List Str} {l : List NutritionData}
    {nd : NutritionData} (h : nd ∈ dedupStamp loc seen l) :
    strLower nd.name ∉ seen ∧
      ∃ orig, l.find? (fun x => decide (strLower x.name = strLower nd.name)) = some orig ∧
        nd = stampLoc loc orig := by
  induction l generalizing seen with
  | nil => simp [dedupStamp] at h
  | cons hd t ih =>
    rw [dedupStamp] at h
    by_cases hs : strLower hd.name ∈ seen
    · rw [if_pos hs] at h
      obtain ⟨hnot, orig, hfind, heq⟩ := ih h
      refine ⟨hnot, orig, ?_, heq⟩
      rw [List.find?_cons_of_neg, hfind]
      simp only [decide_eq_true_eq]
      intro hcontra
      exact hnot (hcontra ▸ hs)
    · rw [if_neg hs] at h
      rcases List.mem_cons.mp h with heq | hmem
      · subst heq
        constructor
        · rw [stampLoc_name]
          exact hs
        · refine ⟨hd, ?_, rfl⟩
          rw [List.find?_cons_of_pos]
          simp [stampLoc_name]
      · obtain ⟨hnot, orig, hfind, heq⟩ := ih hmem
        have hne : strLower nd.name ≠ strLower hd.name := by
          intro e
          exact hnot (by rw [e]; exact List.mem_cons_self _ _)
        refine ⟨fun hm => hnot (List.mem_cons_of_mem _ hm), orig, ?_, heq⟩
        rw [List.find?_cons_of_neg, hfind]
        simp only [decide_eq_true_eq]
        exact fun e => hne e.symm

lemma dedupStamp_mem_orig {loc : Str} {seen : List Str} {l : List NutritionData}
    {nd : NutritionData} (h : nd ∈ dedupStamp loc seen l) :
    ∃ orig ∈ l, nd = stampLoc loc orig := by
  obtain ⟨-, orig, hfind, heq⟩ := dedupStamp_mem h
  exact ⟨orig, List.mem_of_find?_eq_some hfind, heq⟩

lemma dedupStamp_pairwise (loc : Str) (seen : List Str) (l : List NutritionData) :
    (dedupStamp loc seen l).Pairwise (fun a b => strLower a.name ≠ strLower b.name) := by
  induction l generalizing seen with
  | nil => simp [dedupStamp]
  | cons hd t ih =>
    rw [dedupStamp]
    split
    · exact ih _
    · refine List.Pairwise.cons ?_ (ih _)
      intro b hb
      have hnot := (dedupStamp_mem hb).1
      rw [stampLoc_name]
      intro e
      exact hnot (by rw [← e]; exact List.mem_cons_self _ _)

lemma scrape_location_ok {fetch : Str → Except Unit Doc} {loc url : Str} {doc : Doc}
    (hurl : lookupLoc (normKey loc) = some url) (hfetch : fetch url = Except.ok doc) :
    scrape_location fetch loc =
      Except.ok (dedupStamp loc []
        (parse_nutrition_table doc ++ parse_nutrition_cards doc)) := by
  unfold scrape_location
  rw [hurl]
  simp only []
  rw [hfetch]

lemma scrape_location_ok_inv {fetch : Str → Except Unit Doc} {loc : Str}
    {out : List NutritionData} (h : scrape_location fetch loc = Except.ok out) :
    ∃ doc,
      out = dedupStamp loc []
        (parse_nutrition_table doc ++ parse_nutrition_cards doc) := by
  unfold scrape_location at h
  split at h
  · exact absurd h (by simp)
  · split at h
    · exact absurd h (by simp)
    · rw [Except.ok.injEq] at h
      exact ⟨_, h.symm⟩

/-- All nine decimal (normalizer-routed) nutrition fields are non-negative
whenever present. -/
def ratFieldsNonneg (nd : NutritionData) : Prop :=
  (∀ q, nd.total_fat = some q → 0 ≤ q) ∧
  (∀ q, nd.saturated_fat = some q → 0 ≤ q) ∧
  (∀ q, nd.trans_fat = some q → 0 ≤ q) ∧
  (∀ q, nd.cholesterol = some q → 0 ≤ q) ∧
  (∀ q, nd.sodium = some q → 0 ≤ q) ∧
  (∀ q, nd.total_carbohydrates = some q → 0 ≤ q) ∧
  (∀ q, nd.dietary_fiber = some q → 0 ≤ q) ∧
  (∀ q, nd.total_sugars = some q → 0 ≤ q) ∧
  (∀ q, nd.protein = some q → 0 ≤ q)

lemma map_valOfDigitsDots_nonneg {o : Option Str} {q : ℚ}
    (h : o.map valOfDigitsDots = some q) : 0 ≤ q := by
  cases o with
  | none => simp at h
  | some d =>
    rw [Option.map_some', Option.some.injEq] at h
    exact h ▸ valOfDigitsDots_nonneg d

lemma parseAttrEntry_ratNonneg {it : LightboxItem} {nd : NutritionData}
    (h : parseAttrEntry it = some nd) : ratFieldsNonneg nd := by
  simp only [parseAttrEntry] at h
  split at h
  · exact absurd h (by simp)
  · split at h
    · exact absurd h (by simp)
    · split at h
      · rw [Option.some.injEq] at h
        subst h
        exact ⟨fun q hq => bind_extract_number_nonneg hq, fun q hq => bind_extract_number_nonneg hq,
          fun q hq => bind_extract_number_nonneg hq, fun q hq => bind_extract_number_nonneg hq,
          fun q hq => bind_extract_number_nonneg hq, fun q hq => bind_extract_number_nonneg hq,
          fun q hq => bind_extract_number_nonneg hq, fun q hq => bind_extract_number_nonneg hq,
          fun q hq => bind_extract_number_nonneg hq⟩
      · exact absurd h (by simp)

lemma parseAttrEntryCompat_ratNonneg {it : LightboxItem} {nd : NutritionData}
    (h : parseAttrEntryCompat it = some nd) : ratFieldsNonneg nd := by
  simp only [parseAttrEntryCompat] at h
  split at h
  · exact absurd h (by simp)
  · split at h
    · exact absurd h (by simp)
    · split at h
      · rw [Option.some.injEq] at h
        subst h
        exact ⟨fun q hq => bind_extract_number_nonneg hq, fun q hq => by simp at hq,
          fun q hq => by simp at hq, fun q hq => by simp at hq, fun q hq => by simp at hq,
          fun q hq => bind_extract_number_nonneg hq, fun q hq => by simp at hq,
          fun q hq => by simp at hq, fun q hq => bind_extract_number_nonneg hq⟩
      · exact absurd h (by simp)

lemma parseCard_ratNonneg {card : Card} {nd : NutritionData}
    (h : parseCard card = some nd) : ratFieldsNonneg nd := by
  simp only [parseCard] at h
  split at h
  · exact absurd h (by simp)
  · split at h
    · exact absurd h (by simp)
    · split at h
      · rw [Option.some.injEq] at h
        subst h
        exact ⟨fun q hq => map_valOfDigitsDots_nonneg hq, fun q hq => by simp at hq,
          fun q hq => by simp at hq, fun q hq => by simp at hq, fun q hq => by simp at hq,
          fun q hq => map_valOfDigitsDots_nonneg hq, fun q hq => by simp at hq,
          fun q hq => by simp at hq, fun q hq => map_valOfDigitsDots_nonneg hq⟩
      · exact absurd h (by simp)

lemma mem_extractors_ratNonneg {doc : Doc} {nd : NutritionData}
    (h : nd ∈ parse_nutrition_table doc ∨ nd ∈ parse_nutrition_cards doc) :
    ratFieldsNonneg nd := by
  rcases h with ht | hc
  · obtain ⟨it, -, hit⟩ := List.mem_filterMap.mp ht
    exact parseAttrEntry_ratNonneg hit
  · rcases List.mem_append.mp hc with h1 | h2
    · obtain ⟨card, -, hit⟩ := List.mem_filterMap.mp h1
      exact parseCard_ratNonneg hit
    · obtain ⟨it, -, hit⟩ := List.mem_filterMap.mp h2
      exact parseAttrEntryCompat_ratNonneg hit

lemma stampLoc_ratNonneg {loc : Str} {nd : NutritionData}
    (h : ratFieldsNonneg nd) : ratFieldsNonneg (stampLoc loc nd) := h

/-! ## Fixture documents -/

/-- Scenario A's attribute-tagged entry: `data-dish-name="Grilled Chicken"`,
`data-calories="320"`, `data-protein="10g"`. -/
def ancA : Anchor :=
  { text := str "Grilled Chicken"
    dataDishName := some (str "Grilled Chicken")
    dataCalories := some (str "320")
    dataProtein := some (str "10g") }

def docA : Doc := { lightboxItems := [{ anchor := some ancA }], cards := [] }

/-- The fetch stub serving `docA` at every URL. -/
def fetchDocA : Str → Except Unit Doc := fun _ => Except.ok docA

/-- The record the attribute extractor produces from `docA`. -/
def ndA : NutritionData :=
  { name := str "Grilled Chicken", calories := some 320, protein := some 10 }

/-- The pipeline's Scenario A output record (context stamped). -/
def grilledChicken : NutritionData :=
  { name := str "Grilled Chicken"
    dining_location := some (str "Berkshire")
    meal_type := some (str "Lunch")
    calories := some 320
    protein := some 10 }

/-- An entry whose `data-calories` attribute holds a negative integer. -/
def ancNeg : Anchor :=
  { text := str "Mystery Item"
    dataDishName := some (str "Mystery Item")
    dataCalories := some (str "-5") }

def docNeg : Doc := { lightboxItems := [{ anchor := some ancNeg }], cards := [] }

/-- The record the attribute extractor produces from `docNeg`. -/
def ndNeg : NutritionData := { name := str "Mystery Item", calories := some (-5) }

/-- An entry whose only substantive datum is the legitimate value zero:
`data-calories="0"`, every other nutrition attribute absent. -/
def ancZero : Anchor :=
  { text := str "Zero Item"
    dataDishName := some (str "Zero Item")
    dataCalories := some (str "0") }

def docZero : Doc := { lightboxItems := [{ anchor := some ancZero }], cards := [] }

def docEmpty : Doc := { lightboxItems := [], cards := [] }

def fetchEmptyDoc : Str → Except Unit Doc := fun _ => Except.ok docEmpty

/-- A transport layer in which every fetch fails. -/
def fetchFail : Str → Except Unit Doc := fun _ => Except.error ()

lemma py_in_nil (s : Str) : py_in [] s = true := by
  induction s with
  | nil => rfl
  | cons c rest ih => simp [py_in, ih]

lemma nameMatches_empty (nd : NutritionData) : nameMatches (str "") nd = true := by
  have : strLower (str "") = [] := rfl
  unfold nameMatches
  rw [this, py_in_nil]

lemma map_stampLoc_dedup (loc : Str) (seen : List Str) (l : List NutritionData) :
    (dedupStamp loc seen l).map (stampLoc loc) = dedupStamp loc seen l := by
  induction l generalizing seen with
  | nil => rfl
  | cons hd t ih =>
    rw [dedupStamp]
    split
    · exact ih _
    · simp only [List.map_cons, stampLoc_idem, ih]

lemma tableA_eq : parse_nutrition_table docA = [ndA] := by with_unfolding_all rfl

lemma cardsA_eq : parse_nutrition_cards docA = [ndA] := by with_unfolding_all rfl

lemma scrapeA_eq :
    scrape_location fetchDocA (str "berkshire") = Except.ok [grilledChicken] := by
  with_unfolding_all rfl

lemma ndA_mem_tableA : ndA ∈ parse_nutrition_table docA := by
  rw [tableA_eq]
  exact List.mem_singleton_self _

/-! ## The claims -/

/-- C1: every record either extractor outputs has at least one of
{calories, protein, total_fat, total_carbohydrates} present (not absent);
a record in which all four are absent never appears in either extractor's
output. -/
theorem extractors_keep_only_substantive (doc : Doc) (nd : NutritionData)
    (h : nd ∈ parse_nutrition_table doc ∨ nd ∈ parse_nutrition_cards doc) :
    nd.calories.isSome ∨ nd.protein.isSome ∨ nd.total_fat.isSome ∨
      nd.total_carbohydrates.isSome := by
  rcases h with ht | hc
  · exact hasSubstantive_isSome (mem_table_substantive ht)
  · exact hasSubstantive_isSome (mem_cards_substantive hc)

/-- Witness for C1 at the Scenario A document. -/
theorem extractors_keep_only_substantive_witness :
    ndA.calories.isSome ∨ ndA.protein.isSome ∨ ndA.total_fat.isSome ∨
      ndA.total_carbohydrates.isSome :=
  extractors_keep_only_substantive docA ndA (Or.inl ndA_mem_tableA)

/-- C2: the merged output of `scrape_location` has no two records with
case-insensitively equal names, is no longer than the two extractors'
outputs combined, and each kept record is the context-stamped first
record of the concatenation (attribute results before card results)
bearing its case-insensitive name. -/
theorem scrape_location_dedup_invariant (fetch : Str → Except Unit Doc)
    (loc url : Str) (doc : Doc) (out : List NutritionData)
    (hurl : lookupLoc (normKey loc) = some url)
    (hfetch : fetch url = Except.ok doc)
    (hout : scrape_location fetch loc = Except.ok out) :
    out.Pairwise (fun a b => strLower a.name ≠ strLower b.name) ∧
    out.length ≤ (parse_nutrition_table doc).length + (parse_nutrition_cards doc).length ∧
    ∀ nd ∈ out,
      ∃ orig,
        (parse_nutrition_table doc ++ parse_nutrition_cards doc).find?
            (fun x => decide (strLower x.name = strLower nd.name)) = some orig ∧
          nd = stampLoc loc orig := by
  rw [scrape_location_ok hurl hfetch, Except.ok.injEq] at hout
  subst hout
  refine ⟨dedupStamp_pairwise _ _ _, ?_, ?_⟩
  · calc (dedupStamp loc [] (parse_nutrition_table doc ++ parse_nutrition_cards doc)).length
        ≤ (parse_nutrition_table doc ++ parse_nutrition_cards doc).length :=
          dedupStamp_length _ _ _
      _ = (parse_nutrition_table doc).length + (parse_nutrition_cards doc).length :=
          List.length_append _ _
  · intro nd hmem
    obtain ⟨-, orig, hfind, heq⟩ := dedupStamp_mem hmem
    exact ⟨orig, hfind, heq⟩

/-- Witness for C2 at the Scenario A document fetched for berkshire. -/
theorem scrape_location_dedup_invariant_witness :
    List.Pairwise (fun a b => strLower a.name ≠ strLower b.name) [grilledChicken] :=
  (scrape_location_dedup_invariant fetchDocA (str "berkshire")
    (str "https://umassdining.com/locations-menus/berkshire/menu") docA
    [grilledChicken] (by with_unfolding_all rfl) rfl scrapeA_eq).1

/-- C3: the numeric normalizer is total, returns `none` or a non-negative
decimal, and maps `"12.5g"` to 12.5, `""` to `none` and `"--"` to `none`. -/
theorem normalizer_total_nonneg :
    (∀ t q, extract_number_from_text t = some q → 0 ≤ q) ∧
    extract_number_from_text (str "12.5g") = some ((25 : ℚ) / 2) ∧
    extract_number_from_text (str "") = none ∧
    extract_number_from_text (str "--") = none :=
  ⟨fun _ _ h => extract_number_nonneg h, by with_unfolding_all rfl, rfl,
    by with_unfolding_all rfl⟩

/-- Witness for C3: the proved bound applied at `"12.5g"`. -/
theorem normalizer_total_nonneg_witness : (0 : ℚ) ≤ (25 : ℚ) / 2 :=
  normalizer_total_nonneg.1 (str "12.5g") ((25 : ℚ) / 2)
    normalizer_total_nonneg.2.1

/-- C4 counterexample: an entry whose `data-calories` attribute is `"-5"`
is retained by the attribute extractor with the negative calories value
`-5`, because calories are parsed with a raw `int()` that accepts a sign. -/
theorem negative_calories_attribute_counterexample :
    parse_nutrition_table docNeg = [ndNeg] ∧ ndNeg.calories = some (-5) ∧
      ¬(0 : Int) ≤ -5 :=
  ⟨by with_unfolding_all rfl, rfl, by decide⟩

/-- C4 amended: every numeric field routed through the normalizer (the nine
decimal fields) is non-negative whenever present, in every extractor output
and in every merged `scrape_location` output; the calories field, parsed
with a raw integer parse, is exempt. -/
theorem rat_fields_nonneg_everywhere :
    (∀ doc nd, nd ∈ parse_nutrition_table doc ∨ nd ∈ parse_nutrition_cards doc →
        ratFieldsNonneg nd) ∧
    (∀ fetch loc out nd, scrape_location fetch loc = Except.ok out → nd ∈ out →
        ratFieldsNonneg nd) := by
  constructor
  · exact fun doc nd h => mem_extractors_ratNonneg h
  · intro fetch loc out nd hok hmem
    obtain ⟨doc, rfl⟩ := scrape_location_ok_inv hok
    obtain ⟨orig, horig, rfl⟩ := dedupStamp_mem_orig hmem
    exact stampLoc_ratNonneg
      (mem_extractors_ratNonneg (List.mem_append.mp horig))

/-- Witness for C4's amended theorem at the Scenario A record. -/
theorem rat_fields_nonneg_everywhere_witness : ratFieldsNonneg ndA :=
  rat_fields_nonneg_everywhere.1 docA ndA (Or.inl ndA_mem_tableA)

/-- C5 counterexample: an entry whose only substantive field is the
legitimate value zero (`data-calories="0"`, the other three absent) is
discarded by both extractors, not retained — the filter tests truthiness,
and `0` is falsy. -/
theorem zero_only_record_discarded :
    (getIfTruthy ancZero.dataCalories).bind pyInt = some 0 ∧
    parse_nutrition_table docZero = [] ∧ parse_nutrition_cards docZero = [] :=
  ⟨by with_unfolding_all rfl, by with_unfolding_all rfl, by with_unfolding_all rfl⟩

/-- C5 amended: a record is retained only if at least one of the four
substantive fields is present with a nonzero value (truthiness, not mere
presence). -/
theorem retention_requires_nonzero_field (doc : Doc) (nd : NutritionData)
    (h : nd ∈ parse_nutrition_table doc ∨ nd ∈ parse_nutrition_cards doc) :
    (∃ c, nd.calories = some c ∧ c ≠ 0) ∨ (∃ q, nd.protein = some q ∧ q ≠ 0) ∨
      (∃ q, nd.total_fat = some q ∧ q ≠ 0) ∨
      (∃ q, nd.total_carbohydrates = some q ∧ q ≠ 0) := by
  rcases h with ht | hc
  · exact hasSubstantive_nonzero (mem_table_substantive ht)
  · exact hasSubstantive_nonzero (mem_cards_substantive hc)

/-- Witness for C5's amended theorem at the Scenario A record. -/
theorem retention_requires_nonzero_field_witness :
    (∃ c, ndA.calories = some c ∧ c ≠ 0) ∨ (∃ q, ndA.protein = some q ∧ q ≠ 0) ∨
      (∃ q, ndA.total_fat = some q ∧ q ≠ 0) ∨
      (∃ q, ndA.total_carbohydrates = some q ∧ q ≠ 0) :=
  retention_requires_nonzero_field docA ndA (Or.inl ndA_mem_tableA)

/-- C6 counterexample: for the unregistered key `"nowhere"`,
`scrape_location` raises the invalid-location error listing the valid
keys, but `search_food_nutrition` in single-location mode catches it and
returns the empty list instead of surfacing it to the caller. -/
theorem search_swallows_invalid_location :
    scrape_location fetchEmptyDoc (str "nowhere") =
        Except.error (ScrapeErr.invalidLocation (str "nowhere") locKeys) ∧
      search_food_nutrition fetchEmptyDoc (str "pizza") (some (str "nowhere")) = [] :=
  ⟨rfl, rfl⟩

/-- C6 amended: for every location key outside the registry,
`scrape_location` surfaces the invalid-location error carrying the list of
valid keys, while `search_food_nutrition` in single-location mode catches
every error and returns the empty list. -/
theorem invalid_location_raises_in_scrape (fetch : Str → Except Unit Doc)
    (loc : Str) (h : lookupLoc (normKey loc) = none) :
    scrape_location fetch loc =
        Except.error (ScrapeErr.invalidLocation loc locKeys) ∧
      ∀ q, search_food_nutrition fetch q (some loc) = [] := by
  have hs : scrape_location fetch loc =
      Except.error (ScrapeErr.invalidLocation loc locKeys) := by
    unfold scrape_location
    rw [h]
  refine ⟨hs, fun q => ?_⟩
  unfold search_food_nutrition
  simp only []
  rw [hs]

/-- Witness for C6's amended theorem at the key `"nowhere"`. -/
theorem invalid_location_raises_in_scrape_witness :
    search_food_nutrition fetchEmptyDoc (str "pasta") (some (str "nowhere")) = [] :=
  (invalid_location_raises_in_scrape fetchEmptyDoc (str "nowhere") rfl).2 (str "pasta")

/-- C7: in the all-locations modes, the search decomposes into independent
per-location contributions; every registered location appears in
`scrape_all_locations`' output; a location whose scrape fails contributes
the empty list; and a location's contribution depends only on the fetch
result at that location's URL, so the other locations' failures leave it
unchanged. -/
theorem per_location_failure_isolation
    (fetch fetch' : Str → Except Unit Doc) (q k : Str) :
    search_food_nutrition fetch q none = locKeys.flatMap (searchLocContrib fetch q) ∧
    (scrape_all_locations fetch).map Prod.fst = locKeys ∧
    (∀ e, scrape_location fetch k = Except.error e →
      searchLocContrib fetch q k = [] ∧ scrapeAllEntry fetch k = []) ∧
    ((∀ u, lookupLoc (normKey k) = some u → fetch u = fetch' u) →
      searchLocContrib fetch q k = searchLocContrib fetch' q k ∧
        scrapeAllEntry fetch k = scrapeAllEntry fetch' k) := by
  refine ⟨rfl, rfl, ?_, ?_⟩
  · intro e he
    constructor
    · unfold searchLocContrib
      rw [he]
    · unfold scrapeAllEntry
      rw [he]
  · intro hagree
    have hsame : scrape_location fetch k = scrape_location fetch' k := by
      unfold scrape_location
      cases hl : lookupLoc (normKey k) with
      | none => rfl
      | some u =>
        simp only []
        rw [hagree u hl]
    constructor
    · unfold searchLocContrib
      rw [hsame]
    · unfold scrapeAllEntry
      rw [hsame]

/-- Witness for C7 with an always-failing transport. -/
theorem per_location_failure_isolation_witness :
    searchLocContrib fetchFail (str "pizza") (str "berkshire") = [] ∧
      scrapeAllEntry fetchFail (str "berkshire") = [] :=
  (per_location_failure_isolation fetchFail fetchFail (str "pizza")
    (str "berkshire")).2.2.1 ScrapeErr.fetchFailed rfl

/-- C8 (Scenario A): a document with exactly one attribute-tagged entry
(calories="320", protein="10g", name "Grilled Chicken") makes each
extractor produce that record once, and the full pipeline returns exactly
one record with name "Grilled Chicken", calories 320 and protein 10 — the
compatibility re-scan's duplicate is removed by deduplication. -/
theorem scenario_a_pipeline :
    parse_nutrition_table docA = [ndA] ∧ parse_nutrition_cards docA = [ndA] ∧
    scrape_location fetchDocA (str "berkshire") = Except.ok [grilledChicken] ∧
    grilledChicken.name = str "Grilled Chicken" ∧
    grilledChicken.calories = some 320 ∧ grilledChicken.protein = some 10 :=
  ⟨tableA_eq, cardsA_eq, scrapeA_eq, rfl, rfl, rfl⟩

/-- C9: merge and deduplication modify only the `dining_location` and
`meal_type` fields — each kept record's name, serving size and nine
numeric fields are exactly those of a record some extractor produced, and
its two context fields hold the formatted location and the fixed meal
type. -/
theorem merge_stamps_only_context (fetch : Str → Except Unit Doc)
    (loc url : Str) (doc : Doc) (out : List NutritionData) (nd : NutritionData)
    (hurl : lookupLoc (normKey loc) = some url)
    (hfetch : fetch url = Except.ok doc)
    (hout : scrape_location fetch loc = Except.ok out) (hmem : nd ∈ out) :
    ∃ orig ∈ parse_nutrition_table doc ++ parse_nutrition_cards doc,
      nd.name = orig.name ∧ nd.serving_size = orig.serving_size ∧
      nd.calories = orig.calories ∧ nd.total_fat = orig.total_fat ∧
      nd.saturated_fat = orig.saturated_fat ∧ nd.trans_fat = orig.trans_fat ∧
      nd.cholesterol = orig.cholesterol ∧ nd.sodium = orig.sodium ∧
      nd.total_carbohydrates = orig.total_carbohydrates ∧
      nd.dietary_fiber = orig.dietary_fiber ∧ nd.total_sugars = orig.total_sugars ∧
      nd.protein = orig.protein ∧
      nd.dining_location =
        some (pyTitle (loc.map (fun c => if c = '_' then ' ' else c))) ∧
      nd.meal_type = some (str "Lunch") := by
  rw [scrape_location_ok hurl hfetch, Except.ok.injEq] at hout
  subst hout
  obtain ⟨orig, horig, rfl⟩ := dedupStamp_mem_orig hmem
  exact ⟨orig, horig, rfl, rfl, rfl, rfl, rfl, rfl, rfl, rfl, rfl, rfl, rfl, rfl,
    rfl, rfl⟩

/-- Witness for C9 at the Scenario A pipeline run. -/
theorem merge_stamps_only_context_witness :
    ∃ orig ∈ parse_nutrition_table docA ++ parse_nutrition_cards docA,
      grilledChicken.name = orig.name ∧
      grilledChicken.serving_size = orig.serving_size ∧
      grilledChicken.calories = orig.calories ∧
      grilledChicken.total_fat = orig.total_fat ∧
      grilledChicken.saturated_fat = orig.saturated_fat ∧
      grilledChicken.trans_fat = orig.trans_fat ∧
      grilledChicken.cholesterol = orig.cholesterol ∧
      grilledChicken.sodium = orig.sodium ∧
      grilledChicken.total_carbohydrates = orig.total_carbohydrates ∧
      grilledChicken.dietary_fiber = orig.dietary_fiber ∧
      grilledChicken.total_sugars = orig.total_sugars ∧
      grilledChicken.protein = orig.protein ∧
      grilledChicken.dining_location =
        some (pyTitle ((str "berkshire").map (fun c => if c = '_' then ' ' else c))) ∧
      grilledChicken.meal_type = some (str "Lunch") :=
  merge_stamps_only_context fetchDocA (str "berkshire")
    (str "https://umassdining.com/locations-menus/berkshire/menu") docA
    [grilledChicken] grilledChicken (by with_unfolding_all rfl) rfl scrapeA_eq
    (List.mem_singleton_self _)

/-- C10: searching with the empty query returns every record the searched
location's pipeline extracted (and, per location, every record in
all-locations mode), and `search_food_nutrition` never returns a record
whose name does not contain the query as a case-insensitive substring. -/
theorem search_substring_semantics :
    (∀ fetch loc data, scrape_location fetch loc = Except.ok data →
      search_food_nutrition fetch (str "") (some loc) = data) ∧
    (∀ fetch k, searchLocContrib fetch (str "") k = scrapeAllEntry fetch k) ∧
    (∀ fetch q lo nd, nd ∈ search_food_nutrition fetch q lo →
      py_in (strLower q) (strLower nd.name) = true) := by
  refine ⟨?_, ?_, ?_⟩
  · intro fetch loc data h
    unfold search_food_nutrition
    simp only []
    rw [h]
    simp only []
    exact List.filter_eq_self.mpr fun a _ => nameMatches_empty a
  · intro fetch k
    unfold searchLocContrib scrapeAllEntry
    cases h : scrape_location fetch k with
    | error e => rfl
    | ok data =>
      simp only []
      rw [List.filter_eq_self.mpr fun a _ => nameMatches_empty a]
      obtain ⟨doc, rfl⟩ := scrape_location_ok_inv h
      exact map_stampLoc_dedup _ _ _
  · intro fetch q lo nd h
    cases lo with
    | some loc =>
      unfold search_food_nutrition at h
      simp only [] at h
      split at h
      · have hmatch := (List.mem_filter.mp h).2
        unfold nameMatches at hmatch
        exact hmatch
      · simp at h
    | none =>
      obtain ⟨k, -, hk⟩ := List.mem_flatMap.mp h
      unfold searchLocContrib at hk
      split at hk
      · simp at hk
      · obtain ⟨x, hx, hxe⟩ := List.mem_map.mp hk
        subst hxe
        have hmatch := (List.mem_filter.mp hx).2
        unfold nameMatches at hmatch
        rw [stampLoc_name]
        exact hmatch

/-- Witness for C10: the empty query over the Scenario A location returns
the whole scrape. -/
theorem search_substring_semantics_witness :
    search_food_nutrition fetchDocA (str "") (some (str "berkshire")) = [grilledChicken] :=
  search_substring_semantics.1 fetchDocA (str "berkshire") [grilledChicken] scrapeA_eq
